import Mathlib

/-!
Verification of the `spawnable` process-lifecycle library.

The development shallowly embeds the two components of the library:

* `Spawned` — the lifecycle tracker (`src/Spawned.ts`): durable state
  (`_spawned`, `_done`, `_exitCode`, `_signal`), the raw notification
  handlers (`onSpawn`, `onError`, `onCloseOrExit`), and the two memoized
  completion signals (`spawnPromise`, `exitPromise`) modelled as
  `Option`-valued decision cells (`none` = still pending, `some o` =
  decided with outcome `o`, decided exactly once).
* `Spawnable` — the spawn coordinator (`src/Spawnable.ts`): the command
  specification and the optional tracker reference, with the synchronous
  prefix of `spawn()` (up to its `await` suspension point) and the
  delegating query/lifecycle methods.

The host runtime delivers notifications serially, so the event handlers
are modelled as pure state transformers and an execution is a list of raw
events folded over the constructed state.
-/

/-- The raw process handle returned by the creation primitive, as far as the
tracker observes it: only the identity probe (`pid`) matters. -/
structure ChildProcessHandle where
  pid : Option Nat
  deriving DecidableEq, Repr

/-- Outcome of the "has started" completion signal (`spawnPromise`):
it either resolves with void or rejects with the raw creation error,
modelled by its message. -/
inductive SpawnOutcome where
  | resolved
  | errored (message : String)
  deriving DecidableEq, Repr

/-- Outcome of the "has terminated" completion signal (`exitPromise`), the
possible resolutions and rejections of `createExitPromise`. -/
inductive ExitOutcome where
  | resolved
  | killedWithSignal (signal : String)
  | exitedWithExitCode (code : Int)
  | malformedTermination
  | errored (message : String)
  deriving DecidableEq, Repr

/-- A one-shot decision cell backing a promise: the first decision wins and is
memoized; once decided (`some`), later decisions are ignored (the `once`
listeners were removed by `cleanup` after the first delivery). -/
def decideOnce {α : Type} (p : Option α) (o : α) : Option α :=
  match p with
  | none => some o
  | some d => some d

/-- State of a `Spawned` lifecycle tracker: the wrapped handle, the four
durable fields `_spawned`, `_done`, `_exitCode`, `_signal`, and the decision
cells of `spawnPromise` and `exitPromise`. -/
structure Spawned where
  childProcess : ChildProcessHandle
  spawned : Bool
  done : Bool
  exitCode : Option Int
  signal : Option String
  spawnPromise : Option SpawnOutcome
  exitPromise : Option ExitOutcome
  deriving DecidableEq, Repr

/-- The `Spawned` constructor: subscribes the handlers and builds both
promises. `createSpawnPromise` resolves immediately when the handle already
has a defined `pid` (`typeof this._childProcess.pid !== "undefined"`);
otherwise both promises start pending. -/
def Spawned.init (childProcess : ChildProcessHandle) : Spawned :=
  { childProcess := childProcess
    spawned := false
    done := false
    exitCode := none
    signal := none
    spawnPromise :=
      if childProcess.pid.isSome then some SpawnOutcome.resolved else none
    exitPromise := none }

/-- The branching of `createExitPromise`'s `onExit` callback on the raw
`(code, signal)` pair: a non-null signal rejects with
`KilledWithSignalError(signal)`; then both-null rejects with the generic
`Error("Both code and signal are null.")`; then code 0 resolves; any other
code rejects with `ExitedWithExitCodeError(code)`. -/
def exitDecision (code : Option Int) (signal : Option String) : ExitOutcome :=
  match signal with
  | some s => ExitOutcome.killedWithSignal s
  | none =>
    match code with
    | none => ExitOutcome.malformedTermination
    | some c =>
      if c = 0 then ExitOutcome.resolved else ExitOutcome.exitedWithExitCode c

/-- Handler of the raw `spawn` notification (`onSpawn`): sets `_spawned` and
emits the internal `spawn` event, which decides the spawn promise if it is
still pending. -/
def Spawned.onSpawn (s : Spawned) : Spawned :=
  { s with
    spawned := true
    spawnPromise := decideOnce s.spawnPromise SpawnOutcome.resolved }

/-- Handler of the raw `error` notification (`onError`): emits the internal
`error` event, delivered to whichever promise is still pending. -/
def Spawned.onError (s : Spawned) (message : String) : Spawned :=
  { s with
    spawnPromise := decideOnce s.spawnPromise (SpawnOutcome.errored message)
    exitPromise := decideOnce s.exitPromise (ExitOutcome.errored message) }

/-- Handler of the raw `close` and `exit` notifications (`onCloseOrExit`):
returns unchanged when `_done` is already set; otherwise sets `_done`,
records the code when non-null and the signal when truthy (a non-empty
string), and emits the internal `exit` event carrying the raw pair, which
decides the exit promise if still pending. -/
def Spawned.onCloseOrExit (s : Spawned) (code : Option Int)
    (signal : Option String) : Spawned :=
  if s.done then s
  else
    { s with
      done := true
      exitCode :=
        match code with
        | some c => some c
        | none => s.exitCode
      signal :=
        match signal with
        | some str => if str = "" then s.signal else some str
        | none => s.signal
      exitPromise := decideOnce s.exitPromise (exitDecision code signal) }

/-- A raw notification delivered by the process handle. -/
inductive RawEvent where
  | spawn
  | error (message : String)
  | close (code : Option Int) (signal : Option String)
  | exit (code : Option Int) (signal : Option String)
  deriving DecidableEq, Repr

/-- Dispatch of one raw notification to its handler; `close` and `exit` are
both wired to `onCloseOrExit`. -/
def Spawned.step (s : Spawned) : RawEvent → Spawned
  | RawEvent.spawn => s.onSpawn
  | RawEvent.error m => s.onError m
  | RawEvent.close c g => s.onCloseOrExit c g
  | RawEvent.exit c g => s.onCloseOrExit c g

/-- Serial delivery of a list of raw notifications. -/
def Spawned.run (s : Spawned) (events : List RawEvent) : Spawned :=
  events.foldl Spawned.step s

/-- Query `hasSpawned()`: reads `_spawned`. -/
def Spawned.hasSpawned (s : Spawned) : Bool := s.spawned

/-- Query `isDone()`: reads `_done`. -/
def Spawned.isDone (s : Spawned) : Bool := s.done

/-- Query `wasKilled()`: `this._signal !== undefined`. -/
def Spawned.wasKilled (s : Spawned) : Bool := s.signal.isSome

/-- Query `hasExitedSuccessfully()`:
`!this.wasKilled() && this._exitCode === 0`. -/
def Spawned.hasExitedSuccessfully (s : Spawned) : Bool :=
  !s.wasKilled && s.exitCode == some 0

/-- Query `hasExitedWithError()`:
`!this.wasKilled() && this._exitCode !== 0`. -/
def Spawned.hasExitedWithError (s : Spawned) : Bool :=
  !s.wasKilled && s.exitCode != some 0

/-- `waitForSpawn()` returns the stored `spawnPromise`; here, its decision
cell. -/
def Spawned.waitForSpawn (s : Spawned) : Option SpawnOutcome := s.spawnPromise

/-- `waitForExit()` returns the stored `exitPromise`; here, its decision
cell. -/
def Spawned.waitForExit (s : Spawned) : Option ExitOutcome := s.exitPromise

/-- Errors thrown synchronously by the `Spawnable` coordinator. -/
inductive SpawnableError where
  | alreadySpawned
  | emptyCommand
  | notYetSpawned
  deriving DecidableEq, Repr

/-- State of a `Spawnable` coordinator: the command specification and the
optional tracker reference (`protected spawned?: Spawned`). -/
structure Spawnable where
  command : List String
  spawned : Option Spawned
  deriving DecidableEq, Repr

/-- The synchronous prefix of `Spawnable.spawn()`, up to its `await`
suspension point: throws `AlreadySpawnedError` when the tracker reference is
populated; destructures the command and throws `EmptyCommandError` when the
first element is missing or falsy (the empty string); otherwise invokes the
creation primitive (whose returned handle is the `handle` argument) and
populates the tracker reference before suspending. The returned `Bool`
records whether the creation primitive was invoked. -/
def Spawnable.spawnSync (sp : Spawnable) (handle : ChildProcessHandle) :
    Except SpawnableError Spawnable × Bool :=
  if sp.spawned.isSome then (Except.error SpawnableError.alreadySpawned, false)
  else
    match sp.command with
    | [] => (Except.error SpawnableError.emptyCommand, false)
    | first :: _ =>
      if first = "" then (Except.error SpawnableError.emptyCommand, false)
      else (Except.ok { sp with spawned := some (Spawned.init handle) }, true)

/-- Delivery of a raw notification to the coordinator's tracker, when one
exists. -/
def Spawnable.deliver (sp : Spawnable) (e : RawEvent) : Spawnable :=
  { sp with spawned := sp.spawned.map (fun t => t.step e) }

/-- Coordinator query `hasSpawned()`: `!!this.spawned?.hasSpawned()`. -/
def Spawnable.hasSpawned (sp : Spawnable) : Bool :=
  match sp.spawned with
  | some t => t.hasSpawned
  | none => false

/-- Coordinator query `isDone()`: `!!this.spawned?.isDone()`. -/
def Spawnable.isDone (sp : Spawnable) : Bool :=
  match sp.spawned with
  | some t => t.isDone
  | none => false

/-- Coordinator query `wasKilled()`: `!!this.spawned?.wasKilled()`. -/
def Spawnable.wasKilled (sp : Spawnable) : Bool :=
  match sp.spawned with
  | some t => t.wasKilled
  | none => false

/-- Coordinator query `hasExitedSuccessfully()`:
`!!this.spawned?.hasExitedSuccessfully()`. -/
def Spawnable.hasExitedSuccessfully (sp : Spawnable) : Bool :=
  match sp.spawned with
  | some t => t.hasExitedSuccessfully
  | none => false

/-- Coordinator query `hasExitedWithError()`:
`!!this.spawned?.hasExitedWithError()`. -/
def Spawnable.hasExitedWithError (sp : Spawnable) : Bool :=
  match sp.spawned with
  | some t => t.hasExitedWithError
  | none => false

/-- Coordinator query `signal()`: `this.spawned?.signal()`. -/
def Spawnable.signal (sp : Spawnable) : Option String :=
  match sp.spawned with
  | some t => t.signal
  | none => none

/-- Coordinator query `exitCode()`: `this.spawned?.exitCode()`. -/
def Spawnable.exitCode (sp : Spawnable) : Option Int :=
  match sp.spawned with
  | some t => t.exitCode
  | none => none

/-- Coordinator query `childProcess()`: `this.spawned?.childProcess()`. -/
def Spawnable.childProcess (sp : Spawnable) : Option ChildProcessHandle :=
  match sp.spawned with
  | some t => some t.childProcess
  | none => none

/-- Coordinator `kill(signal)`: throws `NotYetSpawnedError` when no tracker
exists, otherwise forwards the signal to the raw handle (fire-and-forget). -/
def Spawnable.kill (sp : Spawnable) (signal : String) :
    Except SpawnableError String :=
  match sp.spawned with
  | some _ => Except.ok signal
  | none => Except.error SpawnableError.notYetSpawned

/-- Coordinator `waitForSpawn()`: throws `NotYetSpawnedError` when no tracker
exists, otherwise awaits the tracker's spawn promise. -/
def Spawnable.waitForSpawn (sp : Spawnable) :
    Except SpawnableError (Option SpawnOutcome) :=
  match sp.spawned with
  | some t => Except.ok t.waitForSpawn
  | none => Except.error SpawnableError.notYetSpawned

/-- Coordinator `waitForExit()`: throws `NotYetSpawnedError` when no tracker
exists, otherwise awaits the tracker's exit promise. -/
def Spawnable.waitForExit (sp : Spawnable) :
    Except SpawnableError (Option ExitOutcome) :=
  match sp.spawned with
  | some t => Except.ok t.waitForExit
  | none => Except.error SpawnableError.notYetSpawned

/-! ### Helper lemmas -/

theorem decideOnce_none {α : Type} (o : α) : decideOnce none o = some o := rfl

theorem decideOnce_some {α : Type} (d o : α) :
    decideOnce (some d) o = some d := rfl

theorem Spawned.step_exit_decided (s : Spawned) (o : ExitOutcome)
    (e : RawEvent) (h : s.exitPromise = some o) :
    (s.step e).exitPromise = some o := by
  cases e <;>
    simp [Spawned.step, Spawned.onSpawn, Spawned.onError,
      Spawned.onCloseOrExit, h, decideOnce] <;>
    split <;> simp [h]

theorem Spawned.onCloseOrExit_done (t : Spawned) (c : Option Int)
    (g : Option String) (h : t.done = true) : t.onCloseOrExit c g = t := by
  simp [Spawned.onCloseOrExit, h]

theorem Spawnable.deliver_foldl_spawned_isSome (sp : Spawnable)
    (events : List RawEvent) :
    (events.foldl Spawnable.deliver sp).spawned.isSome = sp.spawned.isSome := by
  induction events generalizing sp with
  | nil => rfl
  | cons e rest ih =>
    rw [List.foldl_cons, ih]
    cases h : sp.spawned <;> simp [Spawnable.deliver, h]

/-! ### Claims -/

/-- Claim C1: for a termination notification delivered to the pending
"has terminated" signal, `waitForExit` resolves exactly when the signal is
null and the code is 0; rejects with `KilledWithSignalError(signal)` whenever
the signal is non-null, regardless of the code; rejects with
`ExitedWithExitCodeError(code)` when the signal is null and the code is
non-zero; and rejects with the malformed-termination error when both are
null. -/
theorem waitForExit_termination_classification (s : Spawned)
    (code : Option Int) (signal : Option String)
    (hdone : s.done = false) (hpend : s.waitForExit = none) :
    ((s.onCloseOrExit code signal).waitForExit = some ExitOutcome.resolved ↔
      signal = none ∧ code = some 0) ∧
    (∀ sg, signal = some sg →
      (s.onCloseOrExit code signal).waitForExit =
        some (ExitOutcome.killedWithSignal sg)) ∧
    (∀ c, signal = none → code = some c → c ≠ 0 →
      (s.onCloseOrExit code signal).waitForExit =
        some (ExitOutcome.exitedWithExitCode c)) ∧
    (signal = none → code = none →
      (s.onCloseOrExit code signal).waitForExit =
        some ExitOutcome.malformedTermination) := by
  have hx : (s.onCloseOrExit code signal).waitForExit =
      some (exitDecision code signal) := by
    rw [Spawned.waitForExit] at hpend
    simp [Spawned.onCloseOrExit, Spawned.waitForExit, hdone, hpend, decideOnce]
  rw [hx]
  refine ⟨?_, ?_, ?_, ?_⟩
  · constructor
    · intro h
      cases signal with
      | some sg => simp [exitDecision] at h
      | none =>
        cases code with
        | none => simp [exitDecision] at h
        | some c =>
          refine ⟨rfl, ?_⟩
          by_cases hc : c = 0
          · rw [hc]
          · simp [exitDecision, hc] at h
    · rintro ⟨hg, hc⟩
      rw [hg, hc]
      simp [exitDecision]
  · intro sg hsg
    rw [hsg]
    simp [exitDecision]
  · intro c hg hc hne
    rw [hg, hc]
    simp [exitDecision, hne]
  · intro hg hc
    rw [hg, hc]
    simp [exitDecision]

/-- Witness for C1 at a concrete input: a fresh tracker receiving a
successful termination notification. -/
theorem waitForExit_termination_classification_witness :
    (Spawned.init ⟨none⟩).done = false ∧
    (Spawned.init ⟨none⟩).waitForExit = none ∧
    ((Spawned.init ⟨none⟩).onCloseOrExit (some 0) none).waitForExit =
      some ExitOutcome.resolved := by
  refine ⟨rfl, rfl, ?_⟩
  exact (waitForExit_termination_classification (Spawned.init ⟨none⟩)
    (some 0) none rfl rfl).1.mpr ⟨rfl, rfl⟩

/-- Claim C2: the first of the `close`/`exit` notification pair sets `done`,
records the code and/or signal, and decides the pending exit promise; the
second leaves the whole tracker state — every field — unchanged, so the
"has terminated" signal is decided exactly once. -/
theorem close_exit_deduplication (s : Spawned) (c1 c2 : Option Int)
    (g1 g2 : Option String) (hdone : s.done = false) :
    (s.onCloseOrExit c1 g1).done = true ∧
    (∀ c, c1 = some c → (s.onCloseOrExit c1 g1).exitCode = some c) ∧
    (∀ g, g1 = some g → g ≠ "" → (s.onCloseOrExit c1 g1).signal = some g) ∧
    (s.exitPromise = none →
      (s.onCloseOrExit c1 g1).exitPromise = some (exitDecision c1 g1)) ∧
    (s.onCloseOrExit c1 g1).onCloseOrExit c2 g2 = s.onCloseOrExit c1 g1 := by
  have h1 : (s.onCloseOrExit c1 g1).done = true := by
    simp [Spawned.onCloseOrExit, hdone]
  refine ⟨h1, ?_, ?_, ?_, ?_⟩
  · intro c hc
    rw [hc]
    simp [Spawned.onCloseOrExit, hdone]
  · intro g hg hne
    rw [hg]
    simp [Spawned.onCloseOrExit, hdone, hne]
  · intro hpend
    simp [Spawned.onCloseOrExit, hdone, hpend, decideOnce]
  · exact Spawned.onCloseOrExit_done _ c2 g2 h1

/-- Witness for C2 at a concrete input: a fresh tracker receiving an `exit`
notification with code 1 and then a duplicate `close` notification. -/
theorem close_exit_deduplication_witness :
    (Spawned.init ⟨none⟩).done = false ∧
    ((Spawned.init ⟨none⟩).onCloseOrExit (some 1) none).onCloseOrExit
        (some 1) none =
      (Spawned.init ⟨none⟩).onCloseOrExit (some 1) none :=
  ⟨rfl, (close_exit_deduplication (Spawned.init ⟨none⟩) (some 1) (some 1)
    none none rfl).2.2.2.2⟩

/-- Claim C3 (code bug): contrary to the spec, `hasExitedWithError()` returns
true on a freshly constructed tracker, before any termination notification:
`!wasKilled() && _exitCode !== 0` holds because the undefined `_exitCode`
differs from 0 and no done-check is performed. -/
theorem hasExitedWithError_true_before_termination :
    (Spawned.init ⟨none⟩).hasExitedWithError = true ∧
    (Spawned.init ⟨none⟩).isDone = false ∧
    (Spawned.init ⟨none⟩).hasExitedSuccessfully = false := by
  refine ⟨rfl, rfl, rfl⟩

/-- Claim C6: a tracker constructed from a handle whose `pid` is already
defined has its "has started" signal resolved immediately, before any
notification is delivered. -/
theorem waitForSpawn_immediate_when_pid_assigned
    (handle : ChildProcessHandle) (hpid : handle.pid.isSome = true) :
    (Spawned.init handle).waitForSpawn = some SpawnOutcome.resolved := by
  simp [Spawned.init, Spawned.waitForSpawn, hpid]

/-- Witness for C6 at a concrete input: a handle with pid 1. -/
theorem waitForSpawn_immediate_when_pid_assigned_witness :
    (ChildProcessHandle.mk (some 1)).pid.isSome = true ∧
    (Spawned.init ⟨some 1⟩).waitForSpawn = some SpawnOutcome.resolved :=
  ⟨rfl, waitForSpawn_immediate_when_pid_assigned ⟨some 1⟩ rfl⟩

/-- Claim C9: a resolved "has started" signal does not imply the has-started
query: a tracker built from a handle with an assigned pid, before any
`spawn` notification, has `waitForSpawn` already resolved while
`hasSpawned()` still returns false. -/
theorem spawnPromise_resolved_but_hasSpawned_false :
    (Spawned.init ⟨some 1⟩).waitForSpawn = some SpawnOutcome.resolved ∧
    (Spawned.init ⟨some 1⟩).hasSpawned = false := by
  refine ⟨rfl, rfl⟩

/-- Claim C10: the outcome queries are mutually exclusive on every tracker
state: `hasExitedSuccessfully()` and `hasExitedWithError()` are never both
true, and whenever `wasKilled()` is true both are false. -/
theorem outcome_queries_mutually_exclusive (s : Spawned) :
    (s.hasExitedSuccessfully && s.hasExitedWithError) = false ∧
    (s.wasKilled = true →
      s.hasExitedSuccessfully = false ∧ s.hasExitedWithError = false) := by
  constructor
  · by_cases h : s.exitCode = some 0
    · simp [Spawned.hasExitedWithError, h]
    · simp [Spawned.hasExitedSuccessfully, h]
  · intro hk
    simp [Spawned.hasExitedSuccessfully, Spawned.hasExitedWithError, hk]

/-- Witness for C10 at a concrete input: a tracker killed by SIGTERM. -/
theorem outcome_queries_mutually_exclusive_witness :
    ((Spawned.init ⟨none⟩).onCloseOrExit none (some "SIGTERM")).wasKilled =
      true ∧
    ((Spawned.init ⟨none⟩).onCloseOrExit none
        (some "SIGTERM")).hasExitedSuccessfully = false ∧
    ((Spawned.init ⟨none⟩).onCloseOrExit none
        (some "SIGTERM")).hasExitedWithError = false := by
  have hk : ((Spawned.init ⟨none⟩).onCloseOrExit none
      (some "SIGTERM")).wasKilled = true := by decide
  have h := (outcome_queries_mutually_exclusive
    ((Spawned.init ⟨none⟩).onCloseOrExit none (some "SIGTERM"))).2 hk
  exact ⟨hk, h.1, h.2⟩

/-- Claim C4: on an unstarted coordinator whose command is empty or whose
first element is the empty string, `spawn()` fails with `EmptyCommandError`
and the creation primitive is never invoked (the returned flag is `false`,
and the error result carries no new coordinator state). -/
theorem spawn_empty_command_rejected (sp : Spawnable)
    (handle : ChildProcessHandle) (hun : sp.spawned = none)
    (hcmd : sp.command = [] ∨ sp.command.head? = some "") :
    sp.spawnSync handle = (Except.error SpawnableError.emptyCommand, false) := by
  have hnone : sp.spawned.isSome = false := by rw [hun]; rfl
  cases hcmd with
  | inl h => simp [Spawnable.spawnSync, hnone, h]
  | inr h =>
    cases hc : sp.command with
    | nil => simp [Spawnable.spawnSync, hnone, hc]
    | cons first rest =>
      rw [hc] at h
      simp only [List.head?] at h
      rw [Option.some_inj] at h
      simp [Spawnable.spawnSync, hnone, hc, h]

/-- Witness for C4 at a concrete input: a coordinator with an empty command
sequence. -/
theorem spawn_empty_command_rejected_witness :
    (Spawnable.mk [] none).spawned = none ∧
    (Spawnable.mk [] none).spawnSync ⟨some 1⟩ =
      (Except.error SpawnableError.emptyCommand, false) :=
  ⟨rfl, spawn_empty_command_rejected (Spawnable.mk [] none) ⟨some 1⟩ rfl
    (Or.inl rfl)⟩

/-- Claim C5: after a first successful `spawn()` call — the tracker reference
is populated synchronously before the call suspends — a second `spawn()`
call fails with `AlreadySpawnedError` without invoking the creation
primitive, no matter which raw notifications are delivered to the tracker
in between (so in particular whether or not the first call's promise has
resolved). -/
theorem spawn_twice_already_spawned (sp sp2 : Spawnable)
    (handle handle2 : ChildProcessHandle) (events : List RawEvent)
    (hfirst : sp.spawnSync handle = (Except.ok sp2, true)) :
    (events.foldl Spawnable.deliver sp2).spawnSync handle2 =
      (Except.error SpawnableError.alreadySpawned, false) := by
  have hsome : sp2.spawned.isSome = true := by
    by_cases h0 : sp.spawned.isSome
    · simp [Spawnable.spawnSync, h0] at hfirst
    · cases hc : sp.command with
      | nil =>
        rw [Spawnable.spawnSync, if_neg (by simp [h0]), hc] at hfirst
        simp at hfirst
      | cons first rest =>
        rw [Spawnable.spawnSync, if_neg (by simp [h0]), hc] at hfirst
        by_cases hf : first = ""
        · simp [hf] at hfirst
        · simp [hf] at hfirst
          rw [← hfirst]
          rfl
  have hkeep := Spawnable.deliver_foldl_spawned_isSome sp2 events
  rw [hsome] at hkeep
  simp [Spawnable.spawnSync, hkeep]

/-- Witness for C5 at a concrete input: spawning `["ls"]` once, delivering a
`spawn` notification, then calling `spawn()` again. -/
theorem spawn_twice_already_spawned_witness :
    (Spawnable.mk ["ls"] none).spawnSync ⟨some 1⟩ =
      (Except.ok (Spawnable.mk ["ls"] (some (Spawned.init ⟨some 1⟩))), true) ∧
    ([RawEvent.spawn].foldl Spawnable.deliver
        (Spawnable.mk ["ls"] (some (Spawned.init ⟨some 1⟩)))).spawnSync
        ⟨some 2⟩ =
      (Except.error SpawnableError.alreadySpawned, false) :=
  ⟨by rfl, spawn_twice_already_spawned (Spawnable.mk ["ls"] none)
    (Spawnable.mk ["ls"] (some (Spawned.init ⟨some 1⟩))) ⟨some 1⟩ ⟨some 2⟩
    [RawEvent.spawn] (by rfl)⟩

/-- Claim C7: the "has terminated" outcome is decided at most once and
memoized: once `waitForExit` carries a decided outcome, delivering any
further raw notifications leaves exactly the same outcome in place, so
every later call to `waitForExit` observes the same single decision. -/
theorem waitForExit_memoized (s : Spawned) (o : ExitOutcome)
    (events : List RawEvent) (hdec : s.waitForExit = some o) :
    (s.run events).waitForExit = some o := by
  rw [Spawned.waitForExit] at hdec ⊢
  rw [Spawned.run]
  induction events generalizing s with
  | nil => exact hdec
  | cons e rest ih =>
    rw [List.foldl_cons]
    exact ih (s.step e) (Spawned.step_exit_decided s o e hdec)

/-- Witness for C7 at a concrete input: a tracker that exited successfully,
then receives a duplicate `close` and a spurious `exit` notification. -/
theorem waitForExit_memoized_witness :
    ((Spawned.init ⟨none⟩).onCloseOrExit (some 0) none).waitForExit =
      some ExitOutcome.resolved ∧
    (((Spawned.init ⟨none⟩).onCloseOrExit (some 0) none).run
        [RawEvent.close (some 0) none, RawEvent.exit (some 1) none]).waitForExit =
      some ExitOutcome.resolved :=
  ⟨by decide, waitForExit_memoized
    ((Spawned.init ⟨none⟩).onCloseOrExit (some 0) none) ExitOutcome.resolved
    [RawEvent.close (some 0) none, RawEvent.exit (some 1) none] (by decide)⟩

/-- Claim C8: on an unstarted coordinator every query returns its default
not-yet-true/undefined value without throwing, while `kill`,
`waitForSpawn` and `waitForExit` each fail with `NotYetSpawnedError`. -/
theorem unstarted_coordinator_defaults (sp : Spawnable)
    (hun : sp.spawned = none) :
    sp.hasSpawned = false ∧ sp.isDone = false ∧ sp.wasKilled = false ∧
    sp.hasExitedSuccessfully = false ∧ sp.hasExitedWithError = false ∧
    sp.signal = none ∧ sp.exitCode = none ∧ sp.childProcess = none ∧
    (∀ sg, sp.kill sg = Except.error SpawnableError.notYetSpawned) ∧
    sp.waitForSpawn = Except.error SpawnableError.notYetSpawned ∧
    sp.waitForExit = Except.error SpawnableError.notYetSpawned := by
  refine ⟨?_, ?_, ?_, ?_, ?_, ?_, ?_, ?_, ?_, ?_, ?_⟩ <;>
    simp [Spawnable.hasSpawned, Spawnable.isDone, Spawnable.wasKilled,
      Spawnable.hasExitedSuccessfully, Spawnable.hasExitedWithError,
      Spawnable.signal, Spawnable.exitCode, Spawnable.childProcess,
      Spawnable.kill, Spawnable.waitForSpawn, Spawnable.waitForExit, hun]

/-- Witness for C8 at a concrete input: an unstarted coordinator for
`["ls"]`, querying and killing with SIGINT. -/
theorem unstarted_coordinator_defaults_witness :
    (Spawnable.mk ["ls"] none).hasExitedWithError = false ∧
    (Spawnable.mk ["ls"] none).kill "SIGINT" =
      Except.error SpawnableError.notYetSpawned :=
  ⟨(unstarted_coordinator_defaults (Spawnable.mk ["ls"] none) rfl).2.2.2.2.1,
   (unstarted_coordinator_defaults
     (Spawnable.mk ["ls"] none) rfl).2.2.2.2.2.2.2.2.1 "SIGINT"⟩
